import Mathlib

/-!
Shallow embedding of the AstraFS feature-registry core
(`src/core/feature.py` and `src/core/metadata.py`).

Python dicts are embedded as association lists with Python's
insertion-order semantics: assigning to an existing key updates the
entry in place (keeping its position), assigning to a fresh key appends
at the end, and iteration follows list order.  Python `set` values for
dependencies are embedded as lists of keys.  The two sources of runtime
nondeterminism in `register` — the minted version token
`str(uuid4())[:8]` and the timestamp `datetime.utcnow()` — are passed in
as explicit arguments, so one Lean call of `register` models one Python
call at one particular random/clock outcome.
-/

namespace AstraFS

/-- Assignment `d[k] = v` on a Python dict: update in place if the key is
present, otherwise append the new entry at the end. -/
def dictSet {α β : Type} [DecidableEq α] : List (α × β) → α → β → List (α × β)
  | [], k, v => [(k, v)]
  | e :: d, k, v => if e.1 = k then (k, v) :: d else e :: dictSet d k v

/-- Lookup `d[k]` on a Python dict, as an `Option`. -/
def dictGet? {α β : Type} [DecidableEq α] : List (α × β) → α → Option β
  | [], _ => none
  | e :: d, k => if e.1 = k then some e.2 else dictGet? d k

/-- Deletion `del d[k]` on a Python dict. -/
def dictDel {α β : Type} [DecidableEq α] : List (α × β) → α → List (α × β)
  | [], _ => []
  | e :: d, k => if e.1 = k then dictDel d k else e :: dictDel d k

/-- The keys of a dict, in iteration order. -/
def dictKeys {α β : Type} (d : List (α × β)) : List α := d.map Prod.fst

/-- Closed universe of Python runtime type tags used as `value_type`
in `FeatureMetadata` (the source mentions int, float, bool, str). -/
inductive PyType where
  | int
  | float
  | bool
  | str
deriving DecidableEq, Repr

/-- The `__name__` of a Python type tag, as used in the TypeError message. -/
def PyType.typeName : PyType → String
  | .int => "int"
  | .float => "float"
  | .bool => "bool"
  | .str => "str"

/-- Python runtime values that a `compute` implementation may return. -/
inductive PyVal where
  | vInt (n : Int)
  | vBool (b : Bool)
  | vStr (s : String)
deriving DecidableEq, Repr

/-- The runtime type tag `type(value)` of a value. -/
def PyVal.pyType : PyVal → PyType
  | .vInt _ => .int
  | .vBool _ => .bool
  | .vStr _ => .str

/-- Python subclass relation on the embedded type tags: every type is a
subclass of itself, and `bool` is a subclass of `int` (as in CPython). -/
def isSubclass : PyType → PyType → Bool
  | .bool, .int => true
  | a, b => a = b

/-- Python `isinstance(value, t)`: the runtime type tag of `value` is `t`
or a subclass of `t`. -/
def isinstance (v : PyVal) (t : PyType) : Bool :=
  isSubclass v.pyType t

/-- FeatureMetadata from `src/core/feature.py`: the immutable
schema-and-governance contract of a feature (frozen dataclass). -/
structure FeatureMetadata where
  name : String
  entity : String
  value_type : PyType
  description : String
  owner : String
deriving DecidableEq, Repr

/-- Raw data passed to `compute`: a read-only mapping from field name to
value (`Dict[str, Any]` in the source). -/
abbrev RawData := List (String × PyVal)

/-- Feature from `src/core/feature.py`: metadata plus the one abstract
operation `compute(raw_data, event_time)` a concrete subclass supplies.
`event_time` (a `datetime` in the source) is embedded as a `Nat` tick. -/
structure Feature where
  _metadata : FeatureMetadata
  compute : RawData → Nat → PyVal

/-- Read-only property `Feature.name`. -/
def Feature.name (f : Feature) : String := f._metadata.name

/-- Read-only property `Feature.entity`. -/
def Feature.entity (f : Feature) : String := f._metadata.entity

/-- Read-only property `Feature.value_type`. -/
def Feature.value_type (f : Feature) : PyType := f._metadata.value_type

/-- The data carried by the `TypeError` that `Feature.validate` raises:
the feature name, the declared type tag name, and the actual type tag
name, exactly the fields interpolated into the source's message
string. -/
structure TypeMismatch where
  feature : String
  expected : String
  actual : String
deriving DecidableEq, Repr

/-- Feature.validate from `src/core/feature.py`: raise a TypeError unless
`isinstance(value, self.value_type)`. -/
def Feature.validate (f : Feature) (value : PyVal) : Except TypeMismatch Unit :=
  if ¬ isinstance value f.value_type then
    .error ⟨f.name, f.value_type.typeName, value.pyType.typeName⟩
  else
    .ok ()

/-- Feature.evaluate from `src/core/feature.py`: run `compute`, then
`validate`, then return the computed value; a validation error
propagates and no value is produced. -/
def Feature.evaluate (f : Feature) (raw_data : RawData) (event_time : Nat) :
    Except TypeMismatch PyVal :=
  let value := f.compute raw_data event_time
  match f.validate value with
  | .error e => .error e
  | .ok _ => .ok value

/-- Feature.signature from `src/core/feature.py`: the stable descriptor
dict of a feature. -/
def Feature.signature (f : Feature) : List (String × String) :=
  [("name", f.name), ("entity", f.entity), ("value_type", f.value_type.typeName)]

/-- FeatureKey from `src/core/metadata.py`: globally unique identity
(name, entity) of a feature (frozen dataclass, value equality). -/
structure FeatureKey where
  name : String
  entity : String
deriving DecidableEq, Repr

/-- FeatureSpec from `src/core/metadata.py`: one specific registered
version of a feature.  `created_at` (a `datetime` in the source) is
embedded as a `Nat` tick; the `dependencies` set is embedded as a list
of keys. -/
structure FeatureSpec where
  key : FeatureKey
  metadata : FeatureMetadata
  version : String
  created_at : Nat
  dependencies : List FeatureKey
  is_active : Bool := true
  is_deprecated : Bool := false
deriving DecidableEq, Repr

/-- Errors raised by the registry: `notFound` is the explicit
`KeyError(f"Feature {name}:{entity} not found")` raised by `get` and
`deprecate`; `internalKeyError` is the implicit `KeyError` a bare
`self._store[(key, version)]` subscript would raise if the latest index
pointed at a missing store entry. -/
inductive RegistryError where
  | notFound (name : String) (entity : String)
  | internalKeyError
deriving DecidableEq, Repr

/-- FeatureRegistry state from `src/core/metadata.py`: `_store` keyed by
(FeatureKey, version) holds every version, `_latest` tracks the latest
active version per key. -/
structure FeatureRegistry where
  _store : List ((FeatureKey × String) × FeatureSpec)
  _latest : List (FeatureKey × String)
deriving DecidableEq, Repr

/-- FeatureRegistry.__init__: both dicts start empty. -/
def FeatureRegistry.init : FeatureRegistry := ⟨[], []⟩

/-- FeatureRegistry.register from `src/core/metadata.py`.  `version`
stands for the minted `str(uuid4())[:8]` and `now` for
`datetime.utcnow()` of this particular call.  The source builds the
spec with defaults `is_active=True, is_deprecated=False`, writes it at
`_store[(key, version)]` (a plain dict assignment, which overwrites any
entry already at that key), points `_latest[key]` at the new version,
and returns the spec.  No branch raises. -/
def FeatureRegistry.register (r : FeatureRegistry) (metadata : FeatureMetadata)
    (dependencies : List FeatureKey) (version : String) (now : Nat) :
    FeatureSpec × FeatureRegistry :=
  let key : FeatureKey := ⟨metadata.name, metadata.entity⟩
  let spec : FeatureSpec :=
    { key := key, metadata := metadata, version := version,
      created_at := now, dependencies := dependencies }
  (spec,
   { _store := dictSet r._store (key, version) spec,
     _latest := dictSet r._latest key version })

/-- FeatureRegistry.get from `src/core/metadata.py`: resolve the latest
version of (name, entity) or raise KeyError.  `get` only reads the
registry, so the state is unchanged by construction. -/
def FeatureRegistry.get (r : FeatureRegistry) (name entity : String) :
    Except RegistryError FeatureSpec :=
  let key : FeatureKey := ⟨name, entity⟩
  match dictGet? r._latest key with
  | none => .error (.notFound name entity)
  | some version =>
    match dictGet? r._store (key, version) with
    | none => .error .internalKeyError
    | some spec => .ok spec

/-- FeatureRegistry.deprecate from `src/core/metadata.py`: raise KeyError
when the key has no latest entry; otherwise flip the latest spec's
flags to `is_active=False, is_deprecated=True` (an in-place mutation of
the stored object, embedded as updating the store entry) and delete the
key from `_latest`.  The returned pair is (outcome, post-state); on an
error the post-state is the unchanged input state. -/
def FeatureRegistry.deprecate (r : FeatureRegistry) (name entity : String) :
    Except RegistryError Unit × FeatureRegistry :=
  let key : FeatureKey := ⟨name, entity⟩
  match dictGet? r._latest key with
  | none => (.error (.notFound name entity), r)
  | some version =>
    match dictGet? r._store (key, version) with
    | none => (.error .internalKeyError, r)
    | some spec =>
      (.ok (),
       { _store := dictSet r._store (key, version)
           { spec with is_active := false, is_deprecated := true },
         _latest := dictDel r._latest key })

/-- FeatureRegistry.dependency_graph from `src/core/metadata.py`: fold
over the whole store in iteration order, writing
`graph[key] = spec.dependencies` for every (key, version) entry, so for
a key with several stored versions the last-iterated one wins. -/
def FeatureRegistry.dependency_graph (r : FeatureRegistry) :
    List (FeatureKey × List FeatureKey) :=
  r._store.foldl (fun graph kv => dictSet graph kv.1.1 kv.2.dependencies) []

/-- Reference identity of a Python `set` object on the heap, for the
reference-precision model below. -/
abbrev SetRef := Nat

/-- A heap of Python `set` objects: each reference maps to the current
contents of the set object it denotes. -/
abbrev SetHeap := List (SetRef × List FeatureKey)

/-- Dereference a set object (reads the heap). -/
def heapDeref (h : SetHeap) (r : SetRef) : List FeatureKey :=
  (dictGet? h r).getD []

/-- Python `s.add(k)` performed on the set object behind reference `r`:
a no-op when `k` is already a member, otherwise the object behind `r` is
mutated in place, so every holder of `r` sees the new contents. -/
def heapAdd (h : SetHeap) (r : SetRef) (k : FeatureKey) : SetHeap :=
  if k ∈ heapDeref h r then h else dictSet h r (heapDeref h r ++ [k])

/-- FeatureSpec at Python reference precision: `dependencies` is a
reference to a mutable set object, not a copy of its contents — this is
exactly what `register` stores, since the source keeps the caller's set
object itself in the spec. -/
structure FeatureSpecRef where
  key : FeatureKey
  metadata : FeatureMetadata
  version : String
  created_at : Nat
  dependencies : SetRef
  is_active : Bool := true
  is_deprecated : Bool := false
deriving DecidableEq, Repr

/-- FeatureRegistry state at reference precision for dependency sets. -/
structure FeatureRegistryRef where
  _store : List ((FeatureKey × String) × FeatureSpecRef)
  _latest : List (FeatureKey × String)
deriving DecidableEq, Repr

/-- FeatureRegistry.__init__ at reference precision. -/
def FeatureRegistryRef.init : FeatureRegistryRef := ⟨[], []⟩

/-- FeatureRegistry.register at reference precision: the new spec stores
the passed set reference unchanged (the source stores the caller's set
object itself, performing no copy). -/
def FeatureRegistryRef.register (r : FeatureRegistryRef)
    (metadata : FeatureMetadata) (dependencies : SetRef) (version : String)
    (now : Nat) : FeatureSpecRef × FeatureRegistryRef :=
  let key : FeatureKey := ⟨metadata.name, metadata.entity⟩
  let spec : FeatureSpecRef :=
    { key := key, metadata := metadata, version := version,
      created_at := now, dependencies := dependencies }
  (spec,
   { _store := dictSet r._store (key, version) spec,
     _latest := dictSet r._latest key version })

/-- FeatureRegistry.dependency_graph at reference precision: the source
line `graph[key] = spec.dependencies` writes the spec's set reference
into the freshly built dict — no copy of the set contents is made. -/
def FeatureRegistryRef.dependency_graph (r : FeatureRegistryRef) :
    List (FeatureKey × SetRef) :=
  r._store.foldl (fun graph kv => dictSet graph kv.1.1 kv.2.dependencies) []

/-- Concrete key ("txn_count", "user") from the spec's worked scenario. -/
def keyTxn : FeatureKey := ⟨"txn_count", "user"⟩

/-- Concrete metadata for the feature ("user_7d_spend", "user"). -/
def mdSpend : FeatureMetadata :=
  ⟨"user_7d_spend", "user", .float, "seven day spend", "team-ml"⟩

/-- Spec returned by registering `mdSpend` into an empty registry when the
minted token is "aaaaaaaa" and the clock reads 0. -/
def specSpend : FeatureSpec :=
  (FeatureRegistry.init.register mdSpend [keyTxn] "aaaaaaaa" 0).1

/-- Registry state after that first registration. -/
def regSpend : FeatureRegistry :=
  (FeatureRegistry.init.register mdSpend [keyTxn] "aaaaaaaa" 0).2

/-- Spec returned by a second registration of the same metadata when the
truncated uuid collides, minting the same token "aaaaaaaa". -/
def specSpend2 : FeatureSpec :=
  (regSpend.register mdSpend [keyTxn] "aaaaaaaa" 1).1

/-- Registry state after the colliding second registration. -/
def regSpend2 : FeatureRegistry :=
  (regSpend.register mdSpend [keyTxn] "aaaaaaaa" 1).2

/-- Registry state after deprecating ("user_7d_spend", "user") in
`regSpend`. -/
def regDeprecated : FeatureRegistry :=
  (regSpend.deprecate "user_7d_spend" "user").2

/-- Spec returned by re-registering the key after deprecation when the
minted token collides with the deprecated spec's token "aaaaaaaa". -/
def specReColl : FeatureSpec :=
  (regDeprecated.register mdSpend [keyTxn] "aaaaaaaa" 2).1

/-- Registry state after that colliding re-registration. -/
def regReColl : FeatureRegistry :=
  (regDeprecated.register mdSpend [keyTxn] "aaaaaaaa" 2).2

/-- A feature whose contract declares `int` but whose compute returns the
boolean `True` (in CPython, `bool` is a subclass of `int`). -/
def featBoolAsInt : Feature :=
  ⟨⟨"flag", "user", .int, "bool valued, declared int", "team-ml"⟩,
   fun _ _ => .vBool true⟩

/-- A feature whose contract declares `int` and whose compute returns the
integer 42. -/
def featIntOk : Feature :=
  ⟨⟨"spend_int", "user", .int, "int valued", "team-ml"⟩, fun _ _ => .vInt 42⟩

/-- A feature whose contract declares `int` but whose compute returns a
string. -/
def featStrAsInt : Feature :=
  ⟨⟨"spend_int", "user", .int, "str valued, declared int", "team-ml"⟩,
   fun _ _ => .vStr "oops"⟩

/-- Heap with one set object, reference 0, containing `keyTxn`. -/
def heapTxn : SetHeap := [(0, [keyTxn])]

/-- Reference-precision run: register `mdSpend` with the set object behind
reference 0 as its dependency set. -/
def regRefSpend : FeatureSpecRef × FeatureRegistryRef :=
  FeatureRegistryRef.init.register mdSpend 0 "aaaaaaaa" 0

/-! Shared lemmas about the dict embedding. -/

/-- Looking up the key just assigned yields the assigned value. -/
theorem dictGet?_dictSet_self {α β : Type} [DecidableEq α]
    (d : List (α × β)) (k : α) (v : β) :
    dictGet? (dictSet d k v) k = some v := by
  induction d with
  | nil => simp [dictSet, dictGet?]
  | cons e d ih => by_cases h : e.1 = k <;> simp [dictSet, dictGet?, h, ih]

/-- Assigning one key leaves lookups of every other key unchanged. -/
theorem dictGet?_dictSet_ne {α β : Type} [DecidableEq α]
    (d : List (α × β)) (k k' : α) (v : β) (h : k' ≠ k) :
    dictGet? (dictSet d k v) k' = dictGet? d k' := by
  induction d with
  | nil => simp [dictSet, dictGet?, Ne.symm h]
  | cons e d ih =>
    by_cases he : e.1 = k
    · simp [dictSet, dictGet?, he, Ne.symm h]
    · simp [dictSet, dictGet?, he, ih]

/-- Looking up a just-deleted key fails. -/
theorem dictGet?_dictDel_self {α β : Type} [DecidableEq α]
    (d : List (α × β)) (k : α) :
    dictGet? (dictDel d k) k = none := by
  induction d with
  | nil => simp [dictDel, dictGet?]
  | cons e d ih => by_cases h : e.1 = k <;> simp [dictDel, dictGet?, h, ih]

/-- Deleting one key leaves lookups of every other key unchanged. -/
theorem dictGet?_dictDel_ne {α β : Type} [DecidableEq α]
    (d : List (α × β)) (k k' : α) (h : k' ≠ k) :
    dictGet? (dictDel d k) k' = dictGet? d k' := by
  induction d with
  | nil => simp [dictDel, dictGet?]
  | cons e d ih =>
    by_cases he : e.1 = k
    · simp [dictDel, dictGet?, he, ih, Ne.symm h]
    · simp [dictDel, dictGet?, he, ih]

/-- Key membership after an assignment: the assigned key plus the old
keys. -/
theorem mem_dictKeys_dictSet {α β : Type} [DecidableEq α]
    (d : List (α × β)) (k : α) (v : β) (k' : α) :
    k' ∈ dictKeys (dictSet d k v) ↔ k' = k ∨ k' ∈ dictKeys d := by
  induction d with
  | nil => simp [dictSet, dictKeys]
  | cons e d ih =>
    by_cases he : e.1 = k
    · simp [dictSet, dictKeys, he]
    · simp only [dictSet, if_neg he, dictKeys, List.map_cons, List.mem_cons,
        dictKeys] at ih ⊢
      rw [ih]
      tauto

/-- Assignment preserves the no-duplicate-keys invariant of dicts. -/
theorem nodup_dictKeys_dictSet {α β : Type} [DecidableEq α]
    (d : List (α × β)) (k : α) (v : β) (h : (dictKeys d).Nodup) :
    (dictKeys (dictSet d k v)).Nodup := by
  induction d with
  | nil => simp [dictSet, dictKeys]
  | cons e d ih =>
    simp only [dictKeys, List.map_cons, List.nodup_cons] at h
    by_cases he : e.1 = k
    · subst he
      simpa [dictSet, dictKeys] using h
    · have := ih h.2
      simp only [dictSet, if_neg he, dictKeys, List.map_cons, List.nodup_cons]
      refine ⟨fun hc => ?_, this⟩
      rcases (mem_dictKeys_dictSet d k v e.1).1 hc with h1 | h1
      · exact he h1
      · exact h.1 h1

/-! Shared lemmas about the `dependency_graph` fold. -/

/-- The graph fold keeps the accumulated dict's keys duplicate-free. -/
theorem graph_fold_nodup (l : List ((FeatureKey × String) × FeatureSpec))
    (g : List (FeatureKey × List FeatureKey)) (hg : (dictKeys g).Nodup) :
    (dictKeys (l.foldl (fun graph kv => dictSet graph kv.1.1 kv.2.dependencies) g)).Nodup := by
  induction l generalizing g with
  | nil => simpa using hg
  | cons kv l ih => exact ih _ (nodup_dictKeys_dictSet _ _ _ hg)

/-- A key is in the folded graph exactly when it was already accumulated
or some processed store entry carries it. -/
theorem graph_fold_mem (l : List ((FeatureKey × String) × FeatureSpec))
    (g : List (FeatureKey × List FeatureKey)) (key : FeatureKey) :
    key ∈ dictKeys (l.foldl (fun graph kv => dictSet graph kv.1.1 kv.2.dependencies) g) ↔
      key ∈ dictKeys g ∨ ∃ kv ∈ l, kv.1.1 = key := by
  induction l generalizing g with
  | nil => simp
  | cons kv l ih =>
    simp only [List.foldl_cons, ih, mem_dictKeys_dictSet, List.mem_cons]
    constructor
    · rintro ((h | h) | ⟨kv', h1, h2⟩)
      · exact .inr ⟨kv, .inl rfl, h.symm⟩
      · exact .inl h
      · exact .inr ⟨kv', .inr h1, h2⟩
    · rintro (h | ⟨kv', (rfl | h1), h2⟩)
      · exact .inl (.inr h)
      · exact .inl (.inl h2.symm)
      · exact .inr ⟨kv', h1, h2⟩

/-- A binding in the folded graph comes from the accumulator or from the
dependencies of some processed store entry with that key. -/
theorem graph_fold_get (l : List ((FeatureKey × String) × FeatureSpec))
    (g : List (FeatureKey × List FeatureKey)) (key : FeatureKey)
    (deps : List FeatureKey)
    (h : dictGet? (l.foldl (fun graph kv => dictSet graph kv.1.1 kv.2.dependencies) g) key = some deps) :
    dictGet? g key = some deps ∨
      ∃ kv ∈ l, kv.1.1 = key ∧ kv.2.dependencies = deps := by
  induction l generalizing g with
  | nil => exact .inl (by simpa using h)
  | cons kv l ih =>
    rw [List.foldl_cons] at h
    rcases ih _ h with h1 | ⟨kv', hm, hk, hd⟩
    · by_cases hk : key = kv.1.1
      · subst hk
        rw [dictGet?_dictSet_self] at h1
        exact .inr ⟨kv, List.mem_cons_self kv l, rfl, Option.some.inj h1⟩
      · rw [dictGet?_dictSet_ne _ _ _ _ hk] at h1
        exact .inl h1
    · exact .inr ⟨kv', List.mem_cons_of_mem _ hm, hk, hd⟩

/-! Claim theorems. -/

/-- C1: for every registry state and every well-formed
(metadata, dependencies) input, `register` succeeds (it is a total
function of the state and the minted token/timestamp, with no failing
branch), and an immediately following `get(metadata.name,
metadata.entity)` returns exactly the spec `register` returned: its key
is (metadata.name, metadata.entity), its metadata and dependencies are
the registered ones, and its flags are `is_active = true`,
`is_deprecated = false`. -/
theorem register_then_get (r : FeatureRegistry) (metadata : FeatureMetadata)
    (dependencies : List FeatureKey) (version : String) (now : Nat) :
    (r.register metadata dependencies version now).2.get metadata.name metadata.entity =
      .ok (r.register metadata dependencies version now).1 ∧
    (r.register metadata dependencies version now).1.key =
      ⟨metadata.name, metadata.entity⟩ ∧
    (r.register metadata dependencies version now).1.metadata = metadata ∧
    (r.register metadata dependencies version now).1.dependencies = dependencies ∧
    (r.register metadata dependencies version now).1.is_active = true ∧
    (r.register metadata dependencies version now).1.is_deprecated = false := by
  refine ⟨?_, rfl, rfl, rfl, rfl, rfl⟩
  simp [FeatureRegistry.register, FeatureRegistry.get,
    dictGet?_dictSet_self]

/-- C2 (failing run): the version token is `str(uuid4())[:8]`, eight
characters of a random uuid, and `register` performs no uniqueness check
on it, so two calls for the same key can mint the same token.  On the
run where both calls mint "aaaaaaaa", the two version tokens are equal,
refuting per-key distinctness; the second half of the claim — `get`
returns the most recently registered spec — does hold even on this
run. -/
theorem register_version_collision :
    specSpend2.version = specSpend.version ∧
    regSpend2.get "user_7d_spend" "user" = .ok specSpend2 ∧
    specSpend2 ≠ specSpend :=
  ⟨rfl, rfl, by decide⟩

/-- C3 (failing run): on the same colliding run, the second `register`
silently overwrites the store entry at ((user_7d_spend, user),
"aaaaaaaa"): the first spec is no longer anywhere in the store, so a
stored spec was replaced, and the pair (FeatureKey, version) has
identified two different FeatureSpecs over the registry's lifetime. -/
theorem register_overwrites_on_collision :
    dictGet? regSpend2._store (⟨"user_7d_spend", "user"⟩, "aaaaaaaa") =
      some specSpend2 ∧
    specSpend2 ≠ specSpend ∧
    (∀ kv ∈ regSpend2._store, kv.2 ≠ specSpend) := by decide

/-- C4: when key (name, entity) has a latest entry pointing at a stored
spec, `deprecate(name, entity)` succeeds, sets `is_active = false` and
`is_deprecated = true` on exactly that spec's store entry, removes the
key from the latest index (so a following `get` on the key fails with
NotFound), and leaves every other store entry and every other
latest-index entry unchanged. -/
theorem deprecate_latest (r : FeatureRegistry) (name entity version : String)
    (spec : FeatureSpec)
    (h1 : dictGet? r._latest ⟨name, entity⟩ = some version)
    (h2 : dictGet? r._store (⟨name, entity⟩, version) = some spec) :
    (r.deprecate name entity).1 = .ok () ∧
    dictGet? (r.deprecate name entity).2._store (⟨name, entity⟩, version) =
      some { spec with is_active := false, is_deprecated := true } ∧
    dictGet? (r.deprecate name entity).2._latest ⟨name, entity⟩ = none ∧
    (∀ kv : FeatureKey × String, kv ≠ (⟨name, entity⟩, version) →
      dictGet? (r.deprecate name entity).2._store kv = dictGet? r._store kv) ∧
    (∀ key : FeatureKey, key ≠ ⟨name, entity⟩ →
      dictGet? (r.deprecate name entity).2._latest key = dictGet? r._latest key) ∧
    (r.deprecate name entity).2.get name entity =
      .error (.notFound name entity) := by
  simp only [FeatureRegistry.deprecate, h1, h2, FeatureRegistry.get]
  refine ⟨trivial, dictGet?_dictSet_self _ _ _, dictGet?_dictDel_self _ _,
    fun kv hkv => dictGet?_dictSet_ne _ _ _ _ hkv,
    fun key hkey => dictGet?_dictDel_ne _ _ _ hkey, ?_⟩
  simp [dictGet?_dictDel_self]

/-- C4 witness: the hypotheses and the interesting conclusions of
`deprecate_latest` hold concretely on the registry holding one
registration of ("user_7d_spend", "user"). -/
theorem deprecate_latest_witness :
    dictGet? regSpend._latest ⟨"user_7d_spend", "user"⟩ = some "aaaaaaaa" ∧
    dictGet? regSpend._store (⟨"user_7d_spend", "user"⟩, "aaaaaaaa") =
      some specSpend ∧
    (regSpend.deprecate "user_7d_spend" "user").1 = .ok () ∧
    (regSpend.deprecate "user_7d_spend" "user").2.get "user_7d_spend" "user" =
      .error (.notFound "user_7d_spend" "user") :=
  ⟨by decide, rfl,
   (deprecate_latest regSpend "user_7d_spend" "user" "aaaaaaaa" specSpend
      (by decide) rfl).1,
   (deprecate_latest regSpend "user_7d_spend" "user" "aaaaaaaa" specSpend
      (by decide) rfl).2.2.2.2.2⟩

/-- C5: for every registry state and key with no latest-index entry,
`get` fails with NotFound, `deprecate` fails with NotFound, and the
failing `deprecate` leaves the registry state unchanged (`get` never
writes the state at all: it is a function of the state that returns only
a result). -/
theorem missing_key_notFound (r : FeatureRegistry) (name entity : String)
    (h : dictGet? r._latest ⟨name, entity⟩ = none) :
    r.get name entity = .error (.notFound name entity) ∧
    (r.deprecate name entity).1 = .error (.notFound name entity) ∧
    (r.deprecate name entity).2 = r := by
  simp [FeatureRegistry.get, FeatureRegistry.deprecate, h]

/-- C5 witness: `missing_key_notFound` applied to the registry in which
("user_7d_spend", "user") was registered and then deprecated, so the key
has no latest entry although its audit record is still stored. -/
theorem missing_key_notFound_witness :
    dictGet? regDeprecated._latest ⟨"user_7d_spend", "user"⟩ = none ∧
    (regDeprecated.get "user_7d_spend" "user" =
      .error (.notFound "user_7d_spend" "user") ∧
    (regDeprecated.deprecate "user_7d_spend" "user").1 =
      .error (.notFound "user_7d_spend" "user") ∧
    (regDeprecated.deprecate "user_7d_spend" "user").2 = regDeprecated) :=
  ⟨by decide,
   missing_key_notFound regDeprecated "user_7d_spend" "user" (by decide)⟩

/-- C6 counterexample: on a feature whose contract declares `int` while
its compute returns the boolean `True`, the runtime type tag (bool) and
the declared tag (int) differ, yet `evaluate` succeeds and returns the
value — because `validate` uses `isinstance`, which also accepts
subclasses (`bool` is a subclass of `int`).  So "if the types differ,
evaluate produces no value and fails" is false as stated. -/
theorem evaluate_type_differs_yet_ok :
    (featBoolAsInt.compute [] 0).pyType ≠ featBoolAsInt.value_type ∧
    featBoolAsInt.evaluate [] 0 = .ok (.vBool true) :=
  ⟨by decide, rfl⟩

/-- C6 amended: for every feature contract and every (raw_data,
event_time), if the computed value's runtime type is the declared
`value_type` or a subclass of it (Python `isinstance`), `evaluate`
returns that value unchanged; otherwise `evaluate` produces no value and
fails with a TypeMismatch carrying the feature name, the expected type
tag, and the actual type tag. -/
theorem evaluate_isinstance_check (f : Feature) (raw : RawData) (t : Nat) :
    (isinstance (f.compute raw t) f.value_type = true →
      f.evaluate raw t = .ok (f.compute raw t)) ∧
    (isinstance (f.compute raw t) f.value_type = false →
      f.evaluate raw t = .error
        ⟨f.name, f.value_type.typeName, (f.compute raw t).pyType.typeName⟩) := by
  constructor <;> intro h <;> simp [Feature.evaluate, Feature.validate, h]

/-- C6 witness: both branches of `evaluate_isinstance_check`, on a
feature declared `int` returning the integer 42 and on a feature
declared `int` returning the string "oops". -/
theorem evaluate_isinstance_check_witness :
    featIntOk.evaluate [] 0 = .ok (.vInt 42) ∧
    featStrAsInt.evaluate [] 0 = .error ⟨"spend_int", "int", "str"⟩ :=
  ⟨(evaluate_isinstance_check featIntOk [] 0).1 (by decide),
   (evaluate_isinstance_check featStrAsInt [] 0).2 (by decide)⟩

/-- C9: `validate` — and hence `evaluate` — accepts any computed value
whose runtime type is a subclass of the declared `value_type`, not only
exact matches, because the check is Python `isinstance`. -/
theorem subclass_value_accepted (f : Feature) (raw : RawData) (t : Nat)
    (h : isSubclass (f.compute raw t).pyType f.value_type = true) :
    f.validate (f.compute raw t) = .ok () ∧
    f.evaluate raw t = .ok (f.compute raw t) := by
  have h2 : isinstance (f.compute raw t) f.value_type = true := h
  constructor <;> simp [Feature.evaluate, Feature.validate, h2]

/-- C9 witness: a contract declaring `int` accepts a boolean value (in
CPython `bool` is a subclass of `int`) without raising TypeMismatch. -/
theorem subclass_value_accepted_witness :
    isSubclass (featBoolAsInt.compute [] 0).pyType featBoolAsInt.value_type = true ∧
    featBoolAsInt.validate (.vBool true) = .ok () ∧
    featBoolAsInt.evaluate [] 0 = .ok (.vBool true) :=
  ⟨by decide,
   (subclass_value_accepted featBoolAsInt [] 0 (by decide)).1,
   (subclass_value_accepted featBoolAsInt [] 0 (by decide)).2⟩

/-- C7: for every registry state, `dependency_graph()` has exactly one
entry per distinct FeatureKey present in the store — its key list is
duplicate-free and a key appears in it exactly when some store entry
(active, inactive, or deprecated alike) carries that key — and every
binding maps its key to the dependency list of one of that key's stored
specs. -/
theorem dependency_graph_complete (r : FeatureRegistry) :
    (dictKeys r.dependency_graph).Nodup ∧
    (∀ key : FeatureKey,
      key ∈ dictKeys r.dependency_graph ↔ ∃ kv ∈ r._store, kv.1.1 = key) ∧
    (∀ key deps, dictGet? r.dependency_graph key = some deps →
      ∃ kv ∈ r._store, kv.1.1 = key ∧ kv.2.dependencies = deps) := by
  refine ⟨graph_fold_nodup r._store [] (by simp [dictKeys]), fun key => ?_, ?_⟩
  · rw [FeatureRegistry.dependency_graph, graph_fold_mem]
    simp [dictKeys]
  · intro key deps h
    rcases graph_fold_get r._store [] key deps h with h1 | h2
    · simp [dictGet?] at h1
    · exact h2

/-- C7 witness: in the registry where ("user_7d_spend", "user") was
registered with dependency {("txn_count", "user")} and then deprecated,
the deprecated key still has its graph entry, carrying the dependencies
of its stored (deprecated) spec. -/
theorem dependency_graph_complete_witness :
    ∃ kv ∈ regDeprecated._store,
      kv.1.1 = FeatureKey.mk "user_7d_spend" "user" ∧
      kv.2.dependencies = [keyTxn] :=
  (dependency_graph_complete regDeprecated).2.2
    ⟨"user_7d_spend", "user"⟩ [keyTxn] (by decide)

/-- C8 (failing run): at reference precision, the mapping returned by
`dependency_graph` holds the very set reference stored in the registry's
spec — the source line `graph[key] = spec.dependencies` copies a
reference, not the data.  Hence, after adding a key to the set behind
the reference obtained from the returned graph, the stored spec's
dependency set (dereferenced through the registry-held reference, which
is the same reference) has changed too: the returned structure is not a
copied-out snapshot. -/
theorem dependency_graph_shares_references :
    dictGet? regRefSpend.2.dependency_graph ⟨"user_7d_spend", "user"⟩ =
      some regRefSpend.1.dependencies ∧
    dictGet? regRefSpend.2._store (⟨"user_7d_spend", "user"⟩, "aaaaaaaa") =
      some regRefSpend.1 ∧
    heapDeref heapTxn regRefSpend.1.dependencies = [keyTxn] ∧
    heapDeref (heapAdd heapTxn regRefSpend.1.dependencies ⟨"extra_dep", "user"⟩)
        regRefSpend.1.dependencies = [keyTxn, ⟨"extra_dep", "user"⟩] :=
  ⟨rfl, rfl, by decide, by decide⟩

/-- C10 counterexample: deprecate ("user_7d_spend", "user"), then
re-register it on the run where the freshly minted token collides with
the deprecated spec's token "aaaaaaaa".  `get` succeeds again and
returns the new spec — but the previously deprecated spec does not keep
its flags: its store entry was overwritten, and afterwards no stored
spec has `is_deprecated = true`. -/
theorem reregister_collision_loses_deprecated :
    dictGet? regDeprecated._store (⟨"user_7d_spend", "user"⟩, "aaaaaaaa") =
      some { specSpend with is_active := false, is_deprecated := true } ∧
    regReColl.get "user_7d_spend" "user" = .ok specReColl ∧
    (∀ kv ∈ regReColl._store, kv.2.is_deprecated = false) :=
  ⟨rfl, rfl, by decide⟩

/-- C10 amended: deprecation is not terminal for the key, provided the
re-registration mints a version token different from the deprecated
spec's token: after `deprecate(name, entity)` succeeds, a subsequent
`register` with metadata bearing the same (name, entity) makes
`get(name, entity)` succeed again, returning the newly registered spec,
while the previously deprecated spec stays stored with
`is_active = false` and `is_deprecated = true`. -/
theorem deprecate_then_reregister (r : FeatureRegistry) (md : FeatureMetadata)
    (deps2 : List FeatureKey) (v1 v2 : String) (n2 : Nat) (spec : FeatureSpec)
    (h1 : dictGet? r._latest ⟨md.name, md.entity⟩ = some v1)
    (h2 : dictGet? r._store (⟨md.name, md.entity⟩, v1) = some spec)
    (hv : v2 ≠ v1) :
    ((r.deprecate md.name md.entity).2.register md deps2 v2 n2).2.get md.name md.entity =
      .ok ((r.deprecate md.name md.entity).2.register md deps2 v2 n2).1 ∧
    dictGet? ((r.deprecate md.name md.entity).2.register md deps2 v2 n2).2._store
        (⟨md.name, md.entity⟩, v1) =
      some { spec with is_active := false, is_deprecated := true } := by
  simp only [FeatureRegistry.deprecate, h1, h2, FeatureRegistry.register,
    FeatureRegistry.get]
  constructor
  · simp [dictGet?_dictSet_self]
  · rw [dictGet?_dictSet_ne _ _ _ _ (fun hc => hv (congrArg Prod.snd hc).symm)]
    exact dictGet?_dictSet_self _ _ _

/-- C10 witness: the amended statement on the concrete run registering
("user_7d_spend", "user") with token "aaaaaaaa", deprecating it, and
re-registering it with the distinct token "bbbbbbbb". -/
theorem deprecate_then_reregister_witness :
    ((regSpend.deprecate "user_7d_spend" "user").2.register mdSpend [] "bbbbbbbb" 2).2.get
        "user_7d_spend" "user" =
      .ok ((regSpend.deprecate "user_7d_spend" "user").2.register mdSpend [] "bbbbbbbb" 2).1 ∧
    dictGet?
        ((regSpend.deprecate "user_7d_spend" "user").2.register mdSpend [] "bbbbbbbb" 2).2._store
        (⟨"user_7d_spend", "user"⟩, "aaaaaaaa") =
      some { specSpend with is_active := false, is_deprecated := true } :=
  deprecate_then_reregister regSpend mdSpend [] "aaaaaaaa" "bbbbbbbb" 2 specSpend
    (by decide) rfl (by decide)

end AstraFS
